import Mathlib

/-!
# HybridAlgorithm and ProgramPipeline: a shallow embedding

Sources embedded here:

* `source/glowutils/HybridAlgorithm.cpp`: the hybrid order-independent-transparency
  renderer (`draw`, `resize`, the object set-up of `initialize`);
* `source/globjects/source/ProgramPipeline.cpp`: the dirty flag of a program pipeline.

`HybridAlgorithm::draw` is embedded as the list of calls it makes, in source order
(`Cmd`), together with the values it leaves in its function-static arrays and in
its storage buffers, and the exception, if any, with which one of its three
`resize` calls ends it. A small interpreter (`step`, `run`) gives the calls their
effect on the depth/blend/program state of the graphics context.
-/

namespace glowutils

/-! ## Machine integers -/

/-- Two's complement reduction of an integer to the range of a 32-bit `int`. -/
def wrapInt32 (x : Int) : Int := (x + 2 ^ 31) % 2 ^ 32 - 2 ^ 31

/-- The `int` product `a * b`. -/
def imul (a b : Int) : Int := wrapInt32 (a * b)

/-- The `int` quotient `a / b` (C++ division truncates towards zero). -/
def idiv (a b : Int) : Int := wrapInt32 (Int.tdiv a b)

/-- The `int` sum `a + b`. -/
def iadd (a b : Int) : Int := wrapInt32 (a + b)

/-- Conversion of an `int` to the 64-bit `size_t` that `std::vector::resize` takes. -/
def toSizeT (x : Int) : Nat := (x % 2 ^ 64).toNat

/-- The value of `std::numeric_limits<unsigned int>::max()`. -/
def UINT_MAX : Nat := 2 ^ 32 - 1

/-! ## Constants of the anonymous namespace (lines 19-20) -/

/-- Line 19: `const int ABUFFER_SIZE = 4;` -/
def ABUFFER_SIZE : Int := 4

/-- Line 20: `const int VISIBILITY_KTAB_SIZE = ABUFFER_SIZE + 1;` -/
def VISIBILITY_KTAB_SIZE : Int := iadd ABUFFER_SIZE 1

/-! ## The members of `HybridAlgorithm` that `draw` addresses -/

/-- The program members. -/
inductive ProgramRef where
  | m_opaqueProgram
  | m_depthKTabProgram
  | m_visibilityKTabProgram
  | m_colorProgram
  | m_compositionQuad_program
  deriving DecidableEq, Repr

/-- The framebuffer members. -/
inductive FboRef where
  | m_prepassFbo
  | m_colorFbo
  | m_compositionFbo
  deriving DecidableEq, Repr

/-- The storage-buffer members. -/
inductive BufferRef where
  | m_depthKTab
  | m_visibilityKTab
  | m_depthComplexityBuffer
  deriving DecidableEq, Repr

/-- The texture members. -/
inductive TextureRef where
  | m_opaqueBuffer
  | m_coreBuffer
  | m_accumulationBuffer
  | m_colorBuffer
  deriving DecidableEq, Repr

/-- The OpenGL enumerants that occur in the two member functions, and `GL_ZERO`
(the destination blend factor of a fresh context). -/
inductive GLenum where
  | GL_COLOR_ATTACHMENT0
  | GL_COLOR_ATTACHMENT1
  | GL_NONE
  | GL_DEPTH_BUFFER_BIT
  | GL_COLOR_BUFFER_BIT
  | GL_COLOR
  | GL_DEPTH_TEST
  | GL_BLEND
  | GL_ZERO
  | GL_ONE
  | GL_SRC_ALPHA
  | GL_ONE_MINUS_SRC_ALPHA
  | GL_DYNAMIC_DRAW
  | GL_SHADER_STORAGE_BUFFER
  | GL_SHADER_STORAGE_BARRIER_BIT
  | GL_TEXTURE0
  | GL_TEXTURE1
  | GL_TEXTURE2
  | GL_DEPTH_COMPONENT
  | GL_RGBA
  | GL_RGBA32F
  | GL_UNSIGNED_BYTE
  | GL_FLOAT
  deriving DecidableEq, Repr

/-- The values `draw` passes to `setUniform`. The two camera matrices are kept
symbolic: they are whatever `camera->viewProjection()` and `camera->normal()`
return at that point. -/
inductive UniformValue where
  | cameraViewProjection
  | cameraNormal
  | ivec2 (x y : Int)
  | int (v : Int)
  deriving DecidableEq, Repr

/-- One call made by `HybridAlgorithm::draw`. `drawFunction p` is the invocation of
the caller's callback with program `p`. -/
inductive Cmd where
  | glViewport (x y width height : Int)
  | cameraSetViewport (width height : Int)
  | fboBind (fbo : FboRef)
  | fboUnbind (fbo : FboRef)
  | fboSetDrawBuffer (fbo : FboRef) (mode : GLenum)
  | fboClear (fbo : FboRef) (mask : GLenum)
  | fboClearBuffer (fbo : FboRef) (buffer : GLenum) (drawBuffer : Int) (vec4 : ℚ)
  | glEnable (cap : GLenum)
  | glDisable (cap : GLenum)
  | glDepthMask (flag : Bool)
  | glBlendFunc (sfactor dfactor : GLenum)
  | setUniform (program : ProgramRef) (name : String) (value : UniformValue)
  | use (program : ProgramRef)
  | drawFunction (program : ProgramRef)
  | setDataUInt (buffer : BufferRef) (data : List Nat) (usage : GLenum)
  | setDataFloat (buffer : BufferRef) (data : List ℚ) (usage : GLenum)
  | bindBase (buffer : BufferRef) (target : GLenum) (index : Int)
  | glMemoryBarrier (barriers : GLenum)
  | dispatchCompute (program : ProgramRef) (x y z : Int)
  | textureBind (texture : TextureRef) (unit : GLenum)
  | textureUnbind (texture : TextureRef) (unit : GLenum)
  | compositionQuadDraw
  deriving DecidableEq

/-! ## Wrapper objects -/

/-- The level-0 image of a texture as `image2D` specifies it. -/
structure Image2D where
  internalFormat : GLenum
  width : Int
  height : Int
  format : GLenum
  type : GLenum
  deriving DecidableEq, Repr

/-- Modelled from the spec: `glow::Texture` is not under `src/`. A texture is a
handle and its level-0 image; it has no image until `image2D` gives it one. -/
structure Texture where
  id : Nat
  image : Option Image2D
  deriving DecidableEq, Repr

/-- Modelled from the spec: `glow::Texture::image2D` is not under `src/`. It
replaces the backing storage of the given level and keeps the handle
(arguments `level`, `border` and `data` are `0`, `0` and `nullptr` at every call). -/
def Texture.image2D (t : Texture) (internalFormat : GLenum) (width height : Int)
    (format type : GLenum) : Texture :=
  { t with image := some ⟨internalFormat, width, height, format, type⟩ }

/-- The storage of a renderbuffer as `storage` specifies it. -/
structure RenderStorage where
  internalFormat : GLenum
  width : Int
  height : Int
  deriving DecidableEq, Repr

/-- Modelled from the spec: `glow::RenderBufferObject` is not under `src/`. -/
structure RenderBufferObject where
  id : Nat
  store : Option RenderStorage
  deriving DecidableEq, Repr

/-- Modelled from the spec: `glow::RenderBufferObject::storage` is not under
`src/`. It replaces the storage and keeps the handle. -/
def RenderBufferObject.storage (r : RenderBufferObject) (internalFormat : GLenum)
    (width height : Int) : RenderBufferObject :=
  { r with store := some ⟨internalFormat, width, height⟩ }

/-- Modelled from the spec: `glow::Buffer` is not under `src/`. A buffer is a
handle and the number of array elements of its data store (none when created). -/
structure Buffer where
  id : Nat
  elements : Nat
  deriving DecidableEq, Repr

/-- Modelled from the spec: `glow::Buffer::setData` is not under `src/`. It
replaces the data store by one that holds the given array. -/
def Buffer.setData {α : Type} (b : Buffer) (data : List α) : Buffer :=
  { b with elements := data.length }

/-- The resources of a `HybridAlgorithm` that `resize` and `draw` give storage to. -/
structure HybridAlgorithm where
  m_depthBuffer : RenderBufferObject
  m_opaqueBuffer : Texture
  m_coreBuffer : Texture
  m_accumulationBuffer : Texture
  m_colorBuffer : Texture
  m_depthKTab : Buffer
  m_visibilityKTab : Buffer
  m_depthComplexityBuffer : Buffer
  deriving DecidableEq, Repr

/-- Lines 46-53 of `HybridAlgorithm::initialize`: the depth
buffer, the four color textures and the three storage buffers are created, none
with storage. Handles are numbered per kind in creation order. -/
def HybridAlgorithm.afterInitialize : HybridAlgorithm :=
  { m_depthBuffer := ⟨1, none⟩
    m_opaqueBuffer := ⟨1, none⟩
    m_coreBuffer := ⟨2, none⟩
    m_accumulationBuffer := ⟨3, none⟩
    m_colorBuffer := ⟨4, none⟩
    m_depthKTab := ⟨1, 0⟩
    m_visibilityKTab := ⟨2, 0⟩
    m_depthComplexityBuffer := ⟨3, 0⟩ }

/-- Lines 188-194: `HybridAlgorithm::resize`. -/
def HybridAlgorithm.resize (self : HybridAlgorithm) (width height : Int) : HybridAlgorithm :=
  { self with
    m_depthBuffer := self.m_depthBuffer.storage .GL_DEPTH_COMPONENT width height
    m_opaqueBuffer := self.m_opaqueBuffer.image2D .GL_RGBA width height .GL_RGBA .GL_UNSIGNED_BYTE
    m_colorBuffer := self.m_colorBuffer.image2D .GL_RGBA width height .GL_RGBA .GL_UNSIGNED_BYTE
    m_accumulationBuffer :=
      self.m_accumulationBuffer.image2D .GL_RGBA32F width height .GL_RGBA .GL_FLOAT
    m_coreBuffer := self.m_coreBuffer.image2D .GL_RGBA width height .GL_RGBA .GL_UNSIGNED_BYTE }

/-! ## The function-static arrays of `draw` -/

/-- The C++ exceptions that leave `draw`. -/
inductive Exception where
  | length_error
  deriving DecidableEq, Repr

/-- Modelled from the spec: `glow::Array<T>` is not under `src/`; it is a
`std::vector<T>`. This is `max_size()` of a vector of 4-byte elements
(`unsigned int`, `float`): `PTRDIFF_MAX / sizeof(T)`. Every `int` that is not
negative converts to a size below it, every negative `int` to a size above it. -/
def VECTOR_MAX_SIZE : Nat := (2 ^ 63 - 1) / 4

/-- Modelled from the spec: `glow::Array<T>` is not under `src/`; it is a
`std::vector<T>`, whose `resize(n, value)` keeps the first `n` elements when the
vector is at least that long, throws `std::length_error` (leaving the vector as
it is) when `n` is above `max_size()`, and otherwise appends copies of `value`.
Memory is taken to suffice: `std::bad_alloc` is not modelled. -/
def vectorResize {α : Type} (v : List α) (n : Nat) (value : α) : Except Exception (List α) :=
  if n ≤ v.length then .ok (v.take n)
  else if VECTOR_MAX_SIZE < n then .error .length_error
  else .ok (v ++ List.replicate (n - v.length) value)

/-- The three `static glow::Array` variables of `draw` (lines 99, 126, 147). They
live for the whole program and are shared by every call. The `float` array only
ever receives the constant `0.0f`, kept as the rational `0`. -/
structure Statics where
  initialDepthKTab : List Nat
  initialVisibilityKTab : List ℚ
  initialDepthComplexity : List Nat
  deriving DecidableEq

/-- The static arrays before the first call of `draw`: default constructed, empty. -/
def Statics.initial : Statics := ⟨[], [], []⟩

/-- What a call of `draw` produces: the calls it made, the algorithm's
resources, the static arrays it leaves behind, and the exception that ended
the call, if one did (`none` when `draw` returned). -/
structure DrawResult where
  trace : List Cmd
  self : HybridAlgorithm
  statics : Statics
  thrown : Option Exception

/-- Lines 72-97 of `draw`: the calls up to the `resize` of line 100. -/
def callsLine72To97 (width height : Int) : List Cmd :=
  [ .glViewport 0 0 width height,
    .cameraSetViewport width height,
    .fboBind .m_prepassFbo,
    -- render opaque geometry
    .fboSetDrawBuffer .m_prepassFbo .GL_COLOR_ATTACHMENT0,
    .fboClear .m_prepassFbo .GL_DEPTH_BUFFER_BIT,
    .fboClearBuffer .m_prepassFbo .GL_COLOR 0 1,
    .glEnable .GL_DEPTH_TEST,
    .glDisable .GL_BLEND,
    .setUniform .m_opaqueProgram "viewprojectionmatrix" .cameraViewProjection,
    .setUniform .m_opaqueProgram "normalmatrix" .cameraNormal,
    .use .m_opaqueProgram,
    .drawFunction .m_opaqueProgram,
    -- render translucent geometry into depth k-TAB
    .fboSetDrawBuffer .m_prepassFbo .GL_NONE,
    .glDepthMask false ]

/-- Lines 101-115 of `draw`: the calls from the upload of `initialDepthKTab` up to
the `resize` of line 127. -/
def callsLine101To115 (width height : Int) (initialDepthKTab : List Nat) : List Cmd :=
  [ .setDataUInt .m_depthKTab initialDepthKTab .GL_DYNAMIC_DRAW,
    .bindBase .m_depthKTab .GL_SHADER_STORAGE_BUFFER 0,
    .setUniform .m_depthKTabProgram "viewprojectionmatrix" .cameraViewProjection,
    .setUniform .m_depthKTabProgram "normalmatrix" .cameraNormal,
    .setUniform .m_depthKTabProgram "screenSize" (.ivec2 width height),
    .use .m_depthKTabProgram,
    .drawFunction .m_depthKTabProgram,
    .glDepthMask true,
    .fboUnbind .m_prepassFbo,
    .glMemoryBarrier .GL_SHADER_STORAGE_BARRIER_BIT ]

/-- Lines 128-145 of `draw`: the calls from the upload of `initialVisibilityKTab` up
to the `resize` of line 148. -/
def callsLine128To145 (width height : Int) (initialVisibilityKTab : List ℚ) : List Cmd :=
  [ -- compute visibility k-TAB
    .setDataFloat .m_visibilityKTab initialVisibilityKTab .GL_DYNAMIC_DRAW,
    .bindBase .m_visibilityKTab .GL_SHADER_STORAGE_BUFFER 1,
    .setUniform .m_visibilityKTabProgram "dimension" (.int (imul width height)),
    .dispatchCompute .m_visibilityKTabProgram (iadd (idiv (imul width height) 32) 1) 1 1,
    .glMemoryBarrier .GL_SHADER_STORAGE_BARRIER_BIT,
    -- render translucent colors
    .fboBind .m_colorFbo,
    .fboClearBuffer .m_colorFbo .GL_COLOR 0 0,
    .fboClearBuffer .m_colorFbo .GL_COLOR 1 0,
    .glEnable .GL_BLEND,
    .glBlendFunc .GL_ONE .GL_ONE,
    .glDepthMask false ]

/-- Lines 149-185 of `draw`: the calls from the upload of `initialDepthComplexity`
to the end. -/
def callsLine149To185 (width height : Int) (initialDepthComplexity : List Nat) : List Cmd :=
  [ .setDataUInt .m_depthComplexityBuffer initialDepthComplexity .GL_DYNAMIC_DRAW,
    .bindBase .m_depthComplexityBuffer .GL_SHADER_STORAGE_BUFFER 2,
    .setUniform .m_colorProgram "viewprojectionmatrix" .cameraViewProjection,
    .setUniform .m_colorProgram "normalmatrix" .cameraNormal,
    .setUniform .m_colorProgram "screenSize" (.ivec2 width height),
    .use .m_colorProgram,
    .drawFunction .m_colorProgram,
    .glDepthMask true,
    .glBlendFunc .GL_SRC_ALPHA .GL_ONE_MINUS_SRC_ALPHA,
    .glDisable .GL_BLEND,
    .fboUnbind .m_colorFbo,
    -- compose core and tail
    .fboBind .m_compositionFbo,
    .fboClear .m_compositionFbo .GL_COLOR_BUFFER_BIT,
    .textureBind .m_opaqueBuffer .GL_TEXTURE0,
    .textureBind .m_coreBuffer .GL_TEXTURE1,
    .textureBind .m_accumulationBuffer .GL_TEXTURE2,
    .setUniform .m_compositionQuad_program "screenSize" (.ivec2 width height),
    .setUniform .m_compositionQuad_program "opaqueBuffer" (.int 0),
    .setUniform .m_compositionQuad_program "coreBuffer" (.int 1),
    .setUniform .m_compositionQuad_program "accumulationBuffer" (.int 2),
    .compositionQuadDraw,
    .textureUnbind .m_opaqueBuffer .GL_TEXTURE0,
    .textureUnbind .m_coreBuffer .GL_TEXTURE1,
    .textureUnbind .m_accumulationBuffer .GL_TEXTURE2,
    .fboUnbind .m_compositionFbo ]

/-- Lines 71-186: `HybridAlgorithm::draw`. The function has no `try`: when one of
the three `resize` calls (lines 100, 127, 148) throws, the call ends there,
with the calls made, the buffers uploaded and the arrays resized so far. -/
def HybridAlgorithm.draw (self : HybridAlgorithm) (statics : Statics) (width height : Int) :
    DrawResult :=
  match vectorResize statics.initialDepthKTab
      (toSizeT (imul (imul width height) ABUFFER_SIZE)) UINT_MAX with
  | .error e =>
    { trace := callsLine72To97 width height
      self := self
      statics := statics
      thrown := some e }
  | .ok initialDepthKTab =>
    match vectorResize statics.initialVisibilityKTab
        (toSizeT (imul (imul width height) VISIBILITY_KTAB_SIZE)) (0 : ℚ) with
    | .error e =>
      { trace := callsLine72To97 width height ++ callsLine101To115 width height initialDepthKTab
        self := { self with m_depthKTab := self.m_depthKTab.setData initialDepthKTab }
        statics := { statics with initialDepthKTab := initialDepthKTab }
        thrown := some e }
    | .ok initialVisibilityKTab =>
      match vectorResize statics.initialDepthComplexity (toSizeT (imul width height)) 0 with
      | .error e =>
        { trace := callsLine72To97 width height
            ++ callsLine101To115 width height initialDepthKTab
            ++ callsLine128To145 width height initialVisibilityKTab
          self := { self with
            m_depthKTab := self.m_depthKTab.setData initialDepthKTab
            m_visibilityKTab := self.m_visibilityKTab.setData initialVisibilityKTab }
          statics := { statics with
            initialDepthKTab := initialDepthKTab
            initialVisibilityKTab := initialVisibilityKTab }
          thrown := some e }
      | .ok initialDepthComplexity =>
        { trace := callsLine72To97 width height
            ++ callsLine101To115 width height initialDepthKTab
            ++ callsLine128To145 width height initialVisibilityKTab
            ++ callsLine149To185 width height initialDepthComplexity
          self := { self with
            m_depthKTab := self.m_depthKTab.setData initialDepthKTab
            m_visibilityKTab := self.m_visibilityKTab.setData initialVisibilityKTab
            m_depthComplexityBuffer :=
              self.m_depthComplexityBuffer.setData initialDepthComplexity }
          statics := ⟨initialDepthKTab, initialVisibilityKTab, initialDepthComplexity⟩
          thrown := none }

/-- The workgroup counts of every `dispatchCompute` call in a trace. -/
def dispatches : List Cmd → List (Int × Int × Int)
  | [] => []
  | .dispatchCompute _ x y z :: cs => (x, y, z) :: dispatches cs
  | _ :: cs => dispatches cs

/-- The buffer uploads (`setData`) of a trace, in order. -/
inductive Upload where
  | uint (buffer : BufferRef) (data : List Nat)
  | float (buffer : BufferRef) (data : List ℚ)
  deriving DecidableEq

/-- The arrays handed to `setData` in a trace, in order. -/
def uploads : List Cmd → List Upload
  | [] => []
  | .setDataUInt b data _ :: cs => .uint b data :: uploads cs
  | .setDataFloat b data _ :: cs => .float b data :: uploads cs
  | _ :: cs => uploads cs

/-- The arguments of the `drawFunction` invocations of a trace, in order. -/
def invocations : List Cmd → List ProgramRef
  | [] => []
  | .drawFunction p :: cs => p :: invocations cs
  | _ :: cs => invocations cs

/-- The call is `glMemoryBarrier(GL_SHADER_STORAGE_BARRIER_BIT)`. -/
def Cmd.isStorageBarrier : Cmd → Bool
  | .glMemoryBarrier .GL_SHADER_STORAGE_BARRIER_BIT => true
  | _ => false

/-- The call is a `dispatchCompute`. -/
def Cmd.isDispatch : Cmd → Bool
  | .dispatchCompute _ _ _ _ => true
  | _ => false

/-- The call is an invocation of `drawFunction`. -/
def Cmd.isDrawFunction : Cmd → Bool
  | .drawFunction _ => true
  | _ => false

/-- The call is the invocation of `drawFunction` with program `p`. -/
def Cmd.isDrawFunctionOf (p : ProgramRef) : Cmd → Bool
  | .drawFunction q => decide (q = p)
  | _ => false

/-- The call binds framebuffer `f`. -/
def Cmd.isFboBind (f : FboRef) : Cmd → Bool
  | .fboBind g => decide (g = f)
  | _ => false

/-- The indices, counted from `n`, of the calls of a trace that satisfy `p`. -/
def positionsFrom (p : Cmd → Bool) : Nat → List Cmd → List Nat
  | _, [] => []
  | n, c :: cs => if p c then n :: positionsFrom p (n + 1) cs else positionsFrom p (n + 1) cs

/-- The indices of the calls of a trace that satisfy `p`, in increasing order. -/
def positions (p : Cmd → Bool) (t : List Cmd) : List Nat := positionsFrom p 0 t

/-! ## The depth, blend and program state of the graphics context -/

/-- The part of the context state the passes of `draw` set and rely on. -/
structure GLState where
  depthTest : Bool
  blend : Bool
  blendSrc : GLenum
  blendDst : GLenum
  depthMask : Bool
  program : Option ProgramRef
  deriving DecidableEq, Repr

/-- The effect of one call of `draw` (other than the callback) on the context state:
`glEnable`/`glDisable` of the depth test and of blending, `glDepthMask`,
`glBlendFunc` and `use()` set their piece of state. Modelled from the spec: the
framebuffer, buffer, texture, uniform and quad wrappers are not under `src/`;
their calls are taken to leave these pieces alone. -/
def step (s : GLState) : Cmd → GLState
  | .glEnable .GL_DEPTH_TEST => { s with depthTest := true }
  | .glEnable .GL_BLEND => { s with blend := true }
  | .glDisable .GL_DEPTH_TEST => { s with depthTest := false }
  | .glDisable .GL_BLEND => { s with blend := false }
  | .glDepthMask flag => { s with depthMask := flag }
  | .glBlendFunc sfactor dfactor => { s with blendSrc := sfactor, blendDst := dfactor }
  | .use p => { s with program := some p }
  | _ => s

/-- The outcome of running a trace: the context state seen by each invocation
of `drawFunction` (with the program it was given), and the state at the end. -/
structure RunResult where
  seen : List (ProgramRef × GLState)
  final : GLState

/-- Runs a trace from context state `s`. The callback `drawFunction` is any
function of the program it is given and the state it finds. -/
def run (drawFunction : ProgramRef → GLState → GLState) : GLState → List Cmd → RunResult
  | s, [] => ⟨[], s⟩
  | s, .drawFunction p :: cs =>
    let r := run drawFunction (drawFunction p s) cs
    ⟨(p, s) :: r.seen, r.final⟩
  | s, c :: cs => run drawFunction (step s c) cs

/-- Consecutive calls of `draw` at the given resolutions, starting from the
static arrays `statics`, each call returning or caught by the caller: the
algorithm's resources and the static arrays afterwards. -/
def drawAll (self : HybridAlgorithm) (statics : Statics) :
    List (Int × Int) → HybridAlgorithm × Statics
  | [] => (self, statics)
  | (width, height) :: rest =>
    let r := self.draw statics width height
    drawAll r.self r.statics rest

/-- Every entry of each static array is the fill value of that array. -/
def Statics.Filled (st : Statics) : Prop :=
  st.initialDepthKTab = List.replicate st.initialDepthKTab.length UINT_MAX
  ∧ st.initialVisibilityKTab = List.replicate st.initialVisibilityKTab.length 0
  ∧ st.initialDepthComplexity = List.replicate st.initialDepthComplexity.length 0

instance (st : Statics) : Decidable st.Filled := by
  unfold Statics.Filled
  infer_instance

/-- The handles of the depth buffer and of the opaque, core, accumulation and
color targets, in this order. -/
def HybridAlgorithm.handles (self : HybridAlgorithm) : List Nat :=
  [self.m_depthBuffer.id, self.m_opaqueBuffer.id, self.m_coreBuffer.id,
   self.m_accumulationBuffer.id, self.m_colorBuffer.id]

/-- The number of texels of a texture's level-0 image (none without an image). -/
def Texture.texels (t : Texture) : Option Int := t.image.map (fun i => i.width * i.height)

/-- The number of texels of a renderbuffer's storage (none without storage). -/
def RenderBufferObject.texels (r : RenderBufferObject) : Option Int :=
  r.store.map (fun s => s.width * s.height)

/-! ## The visibility recurrence (comment of lines 117-125) -/

/-- An RGBA color with exact components. -/
structure Vec4 where
  r : ℚ
  g : ℚ
  b : ℚ
  a : ℚ
  deriving DecidableEq

/-- Component-wise sum. -/
def Vec4.add (x y : Vec4) : Vec4 := ⟨x.r + y.r, x.g + y.g, x.b + y.b, x.a + y.a⟩

/-- Product with a scalar. -/
def Vec4.scale (x : Vec4) (f : ℚ) : Vec4 := ⟨x.r * f, x.g * f, x.b * f, x.a * f⟩

/-- Modelled from the spec: the compute shader `hybrid_visibilityktab.comp` is
not under `src/`. This is the recurrence of the comment at lines 120-123:
`acc_0 = src_0`, and for `i = 1 to k`, `factor = 1.0 - acc_(i-1).a`,
`acc_i = acc_(i-1) + src_i * factor`. -/
def acc (src : Nat → Vec4) : Nat → Vec4
  | 0 => src 0
  | i + 1 =>
    let factor := 1 - (acc src i).a
    (acc src i).add ((src (i + 1)).scale factor)

/-- Modelled from the spec: the `factor` of iteration `i` (for `1 ≤ i`) of the
recurrence, `1.0 - acc_(i-1).a`. -/
def factor (src : Nat → Vec4) (i : Nat) : ℚ := 1 - (acc src (i - 1)).a

/-- Modelled from the spec: the weights the visibility pass stores for the slots
`i = 1 .. k` of a pixel, `k = ABUFFER_SIZE`: "This pass computes factor for each
fragment" (line 125). -/
def visibilityWeights (src : Nat → Vec4) : List ℚ :=
  (List.range ABUFFER_SIZE.toNat).map (fun n => factor src (n + 1))

/-- Two layers of alpha `1/2` with premultiplied colors `c1 * 0.5` and `c2 * 0.5`
(only the color components of `c1`, `c2` are used); further slots are empty. -/
def twoLayers (c1 c2 : Vec4) : Nat → Vec4
  | 0 => ⟨c1.r * (1 / 2), c1.g * (1 / 2), c1.b * (1 / 2), 1 / 2⟩
  | 1 => ⟨c2.r * (1 / 2), c2.g * (1 / 2), c2.b * (1 / 2), 1 / 2⟩
  | _ => ⟨0, 0, 0, 0⟩

end glowutils

namespace globjects

/-! ## `ProgramPipeline` -/

/-- The calls a `ProgramPipeline` makes on its programs and on the graphics API.
A program is named by the value of its `Program *`. -/
inductive Event where
  | setParameterSeparable (program : Nat)
  | registerListener (program : Nat)
  | deregisterListener (program : Nat)
  | link (program : Nat)
  | glUseProgramStages (pipeline : Nat) (stages : Nat) (program : Option Nat)
  | glValidateProgramPipeline (pipeline : Nat)
  | glGetValidateStatus (pipeline : Nat)
  | glGetInfoLogLength (pipeline : Nat)
  | glGetProgramPipelineInfoLog (pipeline : Nat) (length : Int)
  | critical
  | glUseProgram (program : Nat)
  | glBindProgramPipeline (pipeline : Nat)
  deriving DecidableEq, Repr

/-- What the driver answers to the two queries of `checkUseStatus`. -/
structure Driver where
  validateStatus : Int
  infoLogLength : Int
  deriving DecidableEq, Repr

/-- The members of a `ProgramPipeline` that `use`, `useStages`, `releaseStages` and
`releaseProgram` read and write: its id, `m_dirty` and the set `m_programs`. -/
structure ProgramPipeline where
  id : Nat
  m_dirty : Bool
  m_programs : Finset Nat
  deriving DecidableEq

/-- Lines 18-22: the constructor; `m_dirty(true)`, no programs. -/
def ProgramPipeline.new (id : Nat) : ProgramPipeline := ⟨id, true, ∅⟩

/-- Lines 134-137: `invalidate`. -/
def ProgramPipeline.invalidate (self : ProgramPipeline) : ProgramPipeline :=
  { self with m_dirty := true }

/-- Lines 161-175: `infoLog`. -/
def ProgramPipeline.infoLog (self : ProgramPipeline) (driver : Driver) : List Event :=
  if driver.infoLogLength = 0 then [.glGetInfoLogLength self.id]
  else [.glGetInfoLogLength self.id, .glGetProgramPipelineInfoLog self.id driver.infoLogLength]

/-- Lines 139-151: `checkUseStatus`: `validate()`, then `isValid()`, and the
critical message with the info log when the pipeline is not valid. -/
def ProgramPipeline.checkUseStatus (self : ProgramPipeline) (driver : Driver) :
    List Event × Bool :=
  if driver.validateStatus = 1 then
    ([.glValidateProgramPipeline self.id, .glGetValidateStatus self.id], true)
  else
    ([.glValidateProgramPipeline self.id, .glGetValidateStatus self.id]
      ++ self.infoLog driver ++ [.critical], false)

/-- Lines 72-88: `use`. The loop over `m_programs`, a `std::set<Program *>`,
visits each element once, in increasing order. -/
def ProgramPipeline.use (self : ProgramPipeline) (driver : Driver) :
    ProgramPipeline × List Event :=
  if self.m_dirty then
    ({ self with m_dirty := false },
      (self.m_programs.sort (· ≤ ·)).map Event.link
        ++ (self.checkUseStatus driver).1
        ++ [.glUseProgram 0, .glBindProgramPipeline self.id])
  else
    (self, [.glUseProgram 0, .glBindProgramPipeline self.id])

/-- Lines 90-93: `release`. -/
def ProgramPipeline.release (self : ProgramPipeline) : ProgramPipeline × List Event :=
  (self, [.glBindProgramPipeline 0])

/-- Lines 95-107: `useStages`. -/
def ProgramPipeline.useStages (self : ProgramPipeline) (program : Nat) (stages : Nat) :
    ProgramPipeline × List Event :=
  (({ self with m_programs := insert program self.m_programs } : ProgramPipeline).invalidate,
    [.setParameterSeparable program, .registerListener program, .link program,
     .glUseProgramStages self.id stages (some program)])

/-- Lines 109-114: `releaseStages`. -/
def ProgramPipeline.releaseStages (self : ProgramPipeline) (stages : Nat) :
    ProgramPipeline × List Event :=
  (self.invalidate, [.glUseProgramStages self.id stages none])

/-- Lines 116-122: `releaseProgram`. -/
def ProgramPipeline.releaseProgram (self : ProgramPipeline) (program : Nat) :
    ProgramPipeline × List Event :=
  (({ self with m_programs := self.m_programs.erase program } : ProgramPipeline).invalidate,
    [.deregisterListener program])

/-- A call of one of the public member functions. -/
inductive Op where
  | use (driver : Driver)
  | release
  | useStages (program : Nat) (stages : Nat)
  | releaseStages (stages : Nat)
  | releaseProgram (program : Nat)
  deriving DecidableEq, Repr

/-- The call is a `use()`. -/
def Op.isUse : Op → Bool
  | .use _ => true
  | _ => false

/-- The call changes the stages or the programs of the pipeline. -/
def Op.isChange : Op → Bool
  | .useStages _ _ => true
  | .releaseStages _ => true
  | .releaseProgram _ => true
  | _ => false

/-- Performs one call. -/
def ProgramPipeline.apply (self : ProgramPipeline) : Op → ProgramPipeline × List Event
  | .use driver => self.use driver
  | .release => self.release
  | .useStages program stages => self.useStages program stages
  | .releaseStages stages => self.releaseStages stages
  | .releaseProgram program => self.releaseProgram program

/-- Performs a sequence of calls; the pipeline afterwards. -/
def ProgramPipeline.applyAll (self : ProgramPipeline) : List Op → ProgramPipeline
  | [] => self
  | op :: ops => ProgramPipeline.applyAll (self.apply op).1 ops

/-- The number of `link()` calls on `program` among the events. -/
def linkCount (program : Nat) (events : List Event) : Nat :=
  events.count (.link program)

/-- The number of `glValidateProgramPipeline` calls among the events. -/
def validationCount (pipeline : Nat) (events : List Event) : Nat :=
  events.count (.glValidateProgramPipeline pipeline)

end globjects

namespace glowutils

/-! ## Machine integers: values in range are kept -/

theorem wrapInt32_of_range (x : Int) (h0 : -2 ^ 31 ≤ x) (h1 : x < 2 ^ 31) : wrapInt32 x = x := by
  unfold wrapInt32
  omega

theorem toSizeT_of_nonneg (x : Int) (h0 : 0 ≤ x) (h1 : x < 2 ^ 31) : toSizeT x = x.toNat := by
  unfold toSizeT
  congr 1
  omega

theorem tdiv_32_of_nonneg (n : Int) (h0 : 0 ≤ n) : Int.tdiv n 32 = n / 32 := by
  rw [Int.tdiv_eq_ediv] <;> omega

theorem dispatch_x_of_range (n : Int) (h0 : 0 ≤ n) (h1 : n < 2 ^ 31) :
    iadd (idiv n 32) 1 = n / 32 + 1 := by
  unfold iadd idiv
  rw [tdiv_32_of_nonneg n h0, wrapInt32_of_range (n / 32) (by omega) (by omega)]
  exact wrapInt32_of_range _ (by omega) (by omega)

theorem ceil_div_32 (n : Int) : ⌈((n : ℚ) / 32)⌉ = (n + 31) / 32 := by
  rw [Int.ceil_eq_iff]
  have hq : (n + 31) / 32 * 32 ≤ n + 31 := Int.ediv_mul_le _ (by norm_num)
  have hr : n + 31 < ((n + 31) / 32 + 1) * 32 := Int.lt_ediv_add_one_mul_self _ (by norm_num)
  constructor
  · rw [lt_div_iff₀ (by norm_num : (0 : ℚ) < 32)]
    have : ((n + 31) / 32 - 1) * 32 < n := by omega
    exact_mod_cast this
  · rw [div_le_iff₀ (by norm_num : (0 : ℚ) < 32)]
    have : n ≤ (n + 31) / 32 * 32 := by omega
    exact_mod_cast this

theorem VISIBILITY_KTAB_SIZE_eq : VISIBILITY_KTAB_SIZE = 5 := by decide

theorem sizes_of_pos (width height : Int) (hpos : 0 < width * height)
    (hrange : width * height * 5 < 2 ^ 31) :
    toSizeT (imul (imul width height) ABUFFER_SIZE) = (width * height * 4).toNat
    ∧ toSizeT (imul (imul width height) VISIBILITY_KTAB_SIZE) = (width * height * 5).toNat
    ∧ toSizeT (imul width height) = (width * height).toNat := by
  have hwh : imul width height = width * height := wrapInt32_of_range _ (by omega) (by omega)
  have h4 : imul (width * height) ABUFFER_SIZE = width * height * 4 :=
    wrapInt32_of_range _ (by unfold ABUFFER_SIZE; omega) (by unfold ABUFFER_SIZE; omega)
  have h5 : imul (width * height) VISIBILITY_KTAB_SIZE = width * height * 5 := by
    rw [VISIBILITY_KTAB_SIZE_eq]
    exact wrapInt32_of_range _ (by omega) (by omega)
  rw [hwh, h4, h5]
  exact ⟨toSizeT_of_nonneg _ (by omega) (by omega), toSizeT_of_nonneg _ (by omega) (by omega),
    toSizeT_of_nonneg _ (by omega) (by omega)⟩

/-! ## `std::vector::resize` -/

theorem vectorResize_ok_of_le {α : Type} (v : List α) (n : Nat) (value : α)
    (h : n ≤ VECTOR_MAX_SIZE) : ∃ l, vectorResize v n value = .ok l := by
  unfold vectorResize
  split
  · exact ⟨_, rfl⟩
  · rw [if_neg (by omega)]
    exact ⟨_, rfl⟩

theorem length_of_vectorResize_ok {α : Type} (v : List α) (n : Nat) (value : α) (l : List α)
    (h : vectorResize v n value = .ok l) : l.length = n := by
  unfold vectorResize at h
  split at h
  · rename_i hle
    cases h
    rw [List.length_take, Nat.min_eq_left hle]
  · split at h
    · cases h
    · cases h
      rw [List.length_append, List.length_replicate]
      omega

theorem replicate_of_vectorResize_ok {α : Type} (m n : Nat) (value : α) (l : List α)
    (h : vectorResize (List.replicate m value) n value = .ok l) : l = List.replicate n value := by
  unfold vectorResize at h
  rw [List.length_replicate] at h
  split at h
  · rename_i hle
    cases h
    rw [List.take_replicate, Nat.min_eq_left hle]
  · split at h
    · cases h
    · cases h
      rw [← List.replicate_add]
      congr 1
      omega

theorem toNat_le_max (x : Int) (h : x < 2 ^ 31) : x.toNat ≤ VECTOR_MAX_SIZE := by
  have : VECTOR_MAX_SIZE = 2305843009213693951 := by decide
  omega

/-! ## The shape of a call of `draw` -/

theorem draw_of_ok (self : HybridAlgorithm) (statics : Statics) (width height : Int)
    (a : List Nat) (b : List ℚ) (c : List Nat)
    (ha : vectorResize statics.initialDepthKTab
      (toSizeT (imul (imul width height) ABUFFER_SIZE)) UINT_MAX = .ok a)
    (hb : vectorResize statics.initialVisibilityKTab
      (toSizeT (imul (imul width height) VISIBILITY_KTAB_SIZE)) (0 : ℚ) = .ok b)
    (hc : vectorResize statics.initialDepthComplexity (toSizeT (imul width height)) 0 = .ok c) :
    self.draw statics width height =
      { trace := callsLine72To97 width height ++ callsLine101To115 width height a
          ++ callsLine128To145 width height b ++ callsLine149To185 width height c
        self := { self with
          m_depthKTab := self.m_depthKTab.setData a
          m_visibilityKTab := self.m_visibilityKTab.setData b
          m_depthComplexityBuffer := self.m_depthComplexityBuffer.setData c }
        statics := ⟨a, b, c⟩
        thrown := none } := by
  simp only [HybridAlgorithm.draw, ha, hb, hc]

theorem draw_in_range (self : HybridAlgorithm) (statics : Statics) (width height : Int)
    (hpos : 0 < width * height) (hrange : width * height * 5 < 2 ^ 31) :
    ∃ (a : List Nat) (b : List ℚ) (c : List Nat),
      vectorResize statics.initialDepthKTab (width * height * 4).toNat UINT_MAX = .ok a
      ∧ vectorResize statics.initialVisibilityKTab (width * height * 5).toNat (0 : ℚ) = .ok b
      ∧ vectorResize statics.initialDepthComplexity (width * height).toNat 0 = .ok c
      ∧ self.draw statics width height =
        { trace := callsLine72To97 width height ++ callsLine101To115 width height a
            ++ callsLine128To145 width height b ++ callsLine149To185 width height c
          self := { self with
            m_depthKTab := self.m_depthKTab.setData a
            m_visibilityKTab := self.m_visibilityKTab.setData b
            m_depthComplexityBuffer := self.m_depthComplexityBuffer.setData c }
          statics := ⟨a, b, c⟩
          thrown := none } := by
  obtain ⟨h4, h5, h1⟩ := sizes_of_pos width height hpos hrange
  obtain ⟨a, ha⟩ := vectorResize_ok_of_le statics.initialDepthKTab (width * height * 4).toNat
    UINT_MAX (toNat_le_max _ (by omega))
  obtain ⟨b, hb⟩ := vectorResize_ok_of_le statics.initialVisibilityKTab
    (width * height * 5).toNat (0 : ℚ) (toNat_le_max _ hrange)
  obtain ⟨c, hc⟩ := vectorResize_ok_of_le statics.initialDepthComplexity
    (width * height).toNat 0 (toNat_le_max _ (by omega))
  refine ⟨a, b, c, ha, hb, hc, ?_⟩
  exact draw_of_ok self statics width height a b c (by rw [h4]; exact ha) (by rw [h5]; exact hb)
    (by rw [h1]; exact hc)

/-- A call of `draw` ends at line 100, at line 127 or at line 148 with
`std::length_error`, or runs to the end. -/
theorem draw_cases (self : HybridAlgorithm) (statics : Statics) (width height : Int) :
    ((self.draw statics width height).trace = callsLine72To97 width height
      ∧ (self.draw statics width height).thrown = some .length_error)
    ∨ (∃ a, (self.draw statics width height).trace
          = callsLine72To97 width height ++ callsLine101To115 width height a
        ∧ (self.draw statics width height).thrown = some .length_error)
    ∨ (∃ a b, (self.draw statics width height).trace
          = callsLine72To97 width height ++ callsLine101To115 width height a
            ++ callsLine128To145 width height b
        ∧ (self.draw statics width height).thrown = some .length_error)
    ∨ (∃ a b c, (self.draw statics width height).trace
          = callsLine72To97 width height ++ callsLine101To115 width height a
            ++ callsLine128To145 width height b ++ callsLine149To185 width height c
        ∧ (self.draw statics width height).thrown = none) := by
  unfold HybridAlgorithm.draw
  split
  · rename_i e _
    cases e
    exact Or.inl ⟨rfl, rfl⟩
  · split
    · rename_i e _
      cases e
      exact Or.inr (Or.inl ⟨_, rfl, rfl⟩)
    · split
      · rename_i e _
        cases e
        exact Or.inr (Or.inr (Or.inl ⟨_, _, rfl, rfl⟩))
      · exact Or.inr (Or.inr (Or.inr ⟨_, _, _, rfl, rfl⟩))

/-! ## The compute dispatch -/

/-- C1 (amended): for every width and height whose product `N` is positive, with
`N*5` in `int` range, `draw` returns and makes one `dispatchCompute` call, with
workgroup counts `(N / 32 + 1, 1, 1)` (integer division). The x count is
`ceil(N/32)` when `N` is not a multiple of 32 and `ceil(N/32) + 1` when it is. -/
theorem draw_dispatch_count (self : HybridAlgorithm) (statics : Statics) (width height : Int)
    (hpos : 0 < width * height) (hrange : width * height * 5 < 2 ^ 31) :
    (self.draw statics width height).thrown = none
    ∧ dispatches (self.draw statics width height).trace = [(width * height / 32 + 1, 1, 1)]
    ∧ (¬ (32 : Int) ∣ width * height →
        width * height / 32 + 1 = ⌈(((width * height : Int) : ℚ) / 32)⌉)
    ∧ ((32 : Int) ∣ width * height →
        width * height / 32 + 1 = ⌈(((width * height : Int) : ℚ) / 32)⌉ + 1) := by
  have hw : imul width height = width * height :=
    wrapInt32_of_range _ (by omega) (by omega)
  obtain ⟨a, b, c, -, -, -, hdraw⟩ := draw_in_range self statics width height hpos hrange
  refine ⟨by rw [hdraw], ?_, ?_, ?_⟩
  · rw [hdraw]
    have hd : dispatches (callsLine72To97 width height ++ callsLine101To115 width height a
        ++ callsLine128To145 width height b ++ callsLine149To185 width height c)
        = [(iadd (idiv (imul width height) 32) 1, 1, 1)] := rfl
    rw [hd, hw, dispatch_x_of_range _ (by omega) (by omega)]
  · intro hnd
    rw [ceil_div_32]
    omega
  · intro hd
    rw [ceil_div_32]
    omega

/-- A 4 by 4 viewport, `N = 16`: one workgroup, which is `ceil(16/32)`. -/
theorem draw_dispatch_count_witness :
    (0 : Int) < 4 * 4 ∧ (4 : Int) * 4 * 5 < 2 ^ 31
    ∧ ((HybridAlgorithm.afterInitialize.draw Statics.initial 4 4).thrown = none
      ∧ dispatches (HybridAlgorithm.afterInitialize.draw Statics.initial 4 4).trace
        = [((4 : Int) * 4 / 32 + 1, 1, 1)]
      ∧ (¬ (32 : Int) ∣ 4 * 4 → (4 : Int) * 4 / 32 + 1 = ⌈((((4 : Int) * 4 : Int) : ℚ) / 32)⌉)
      ∧ ((32 : Int) ∣ 4 * 4 →
          (4 : Int) * 4 / 32 + 1 = ⌈((((4 : Int) * 4 : Int) : ℚ) / 32)⌉ + 1)) :=
  ⟨by decide, by decide,
    draw_dispatch_count HybridAlgorithm.afterInitialize Statics.initial 4 4 (by decide) (by decide)⟩

/-- C1 (as stated) fails at an 8 by 4 viewport, `N = 32`: `draw` dispatches 2
workgroups where `ceil(32/32)` is 1. It also fails at 32768 by 16384, where
`N = 2^29` is positive and in `int` range: `N*4` is not, the `resize` of line 100
throws `std::length_error` and no `dispatchCompute` call is made. -/
theorem draw_dispatch_count_not_ceil :
    (dispatches (HybridAlgorithm.afterInitialize.draw Statics.initial 8 4).trace = [(2, 1, 1)]
      ∧ ⌈((((8 : Int) * 4 : Int) : ℚ) / 32)⌉ = 1
      ∧ dispatches (HybridAlgorithm.afterInitialize.draw Statics.initial 8 4).trace
          ≠ [(⌈((((8 : Int) * 4 : Int) : ℚ) / 32)⌉, 1, 1)])
    ∧ ((0 : Int) < 32768 * 16384 ∧ (32768 : Int) * 16384 < 2 ^ 31
      ∧ (HybridAlgorithm.afterInitialize.draw Statics.initial 32768 16384).thrown
          = some .length_error
      ∧ dispatches (HybridAlgorithm.afterInitialize.draw Statics.initial 32768 16384).trace
          = []) := by
  have h1 : dispatches (HybridAlgorithm.afterInitialize.draw Statics.initial 8 4).trace
      = [(2, 1, 1)] := by decide
  have h2 : ⌈((((8 : Int) * 4 : Int) : ℚ) / 32)⌉ = 1 := by
    rw [ceil_div_32]; decide
  refine ⟨⟨h1, h2, ?_⟩, by decide, by decide, by decide, by decide⟩
  rw [h1, h2]
  decide

/-! ## The static fill arrays -/

theorem Statics.filled_initial : Statics.initial.Filled := by
  simp [Statics.Filled, Statics.initial]

theorem draw_statics_filled (self : HybridAlgorithm) (st : Statics) (h : st.Filled)
    (width height : Int) : (self.draw st width height).statics.Filled := by
  obtain ⟨h1, h2, h3⟩ := h
  have k1 := fun n l => replicate_of_vectorResize_ok st.initialDepthKTab.length n UINT_MAX l
  have k2 := fun n l => replicate_of_vectorResize_ok st.initialVisibilityKTab.length n (0 : ℚ) l
  have k3 := fun n l => replicate_of_vectorResize_ok st.initialDepthComplexity.length n 0 l
  rw [← h1] at k1
  rw [← h2] at k2
  rw [← h3] at k3
  unfold HybridAlgorithm.draw
  split
  · exact ⟨h1, h2, h3⟩
  · rename_i a ha
    have ea := k1 _ _ ha
    split
    · refine ⟨?_, h2, h3⟩
      show a = List.replicate a.length UINT_MAX
      rw [ea, List.length_replicate]
    · rename_i b hb
      have eb := k2 _ _ hb
      split
      · refine ⟨?_, ?_, h3⟩
        · show a = List.replicate a.length UINT_MAX
          rw [ea, List.length_replicate]
        · show b = List.replicate b.length 0
          rw [eb, List.length_replicate]
      · rename_i c hc
        have ec := k3 _ _ hc
        refine ⟨?_, ?_, ?_⟩
        · show a = List.replicate a.length UINT_MAX
          rw [ea, List.length_replicate]
        · show b = List.replicate b.length 0
          rw [eb, List.length_replicate]
        · show c = List.replicate c.length 0
          rw [ec, List.length_replicate]

theorem drawAll_statics_filled (earlier : List (Int × Int)) :
    ∀ (self : HybridAlgorithm) (st : Statics), st.Filled → (drawAll self st earlier).2.Filled := by
  induction earlier with
  | nil => intro self st h; exact h
  | cons r rest ih =>
    intro self st h
    obtain ⟨w, hgt⟩ := r
    exact ih _ _ (draw_statics_filled self st h w hgt)

theorem draw_uploads_of_filled (self : HybridAlgorithm) (st : Statics) (h : st.Filled)
    (width height : Int) (hpos : 0 < width * height) (hrange : width * height * 5 < 2 ^ 31) :
    (self.draw st width height).thrown = none
    ∧ uploads (self.draw st width height).trace =
      [ .uint .m_depthKTab (List.replicate (width * height * 4).toNat UINT_MAX),
        .float .m_visibilityKTab (List.replicate (width * height * 5).toNat 0),
        .uint .m_depthComplexityBuffer (List.replicate (width * height).toNat 0) ] := by
  obtain ⟨h1, h2, h3⟩ := h
  obtain ⟨a, b, c, ha, hb, hc, hdraw⟩ := draw_in_range self st width height hpos hrange
  rw [h1] at ha
  rw [h2] at hb
  rw [h3] at hc
  have ea := replicate_of_vectorResize_ok _ _ _ _ ha
  have eb := replicate_of_vectorResize_ok _ _ _ _ hb
  have ec := replicate_of_vectorResize_ok _ _ _ _ hc
  rw [hdraw, ← ea, ← eb, ← ec]
  exact ⟨rfl, rfl⟩

/-- C2 (amended): after any sequence `earlier` of `draw` calls (at any resolutions)
since the program started, a call `draw(width, height)` at a positive resolution
with `width*height*5` in `int` range returns, and uploads to the depth k-table
exactly `width*height*4` entries all equal to `2^32 - 1`, to the visibility k-table
exactly `width*height*5` entries all zero, and to the depth-complexity buffer
exactly `width*height` entries all zero. -/
theorem draw_uploads_fresh (self : HybridAlgorithm) (earlier : List (Int × Int))
    (width height : Int) (hw : 0 < width) (hh : 0 < height)
    (hrange : width * height * 5 < 2 ^ 31) :
    (((drawAll self Statics.initial earlier).1.draw
        (drawAll self Statics.initial earlier).2 width height).thrown = none)
    ∧ uploads (((drawAll self Statics.initial earlier).1.draw
        (drawAll self Statics.initial earlier).2 width height).trace) =
      [ .uint .m_depthKTab (List.replicate (width * height * 4).toNat (2 ^ 32 - 1)),
        .float .m_visibilityKTab (List.replicate (width * height * 5).toNat 0),
        .uint .m_depthComplexityBuffer (List.replicate (width * height).toNat 0) ] :=
  draw_uploads_of_filled _ _
    (drawAll_statics_filled earlier self Statics.initial Statics.filled_initial)
    width height (Int.mul_pos hw hh) hrange

/-- A 3 by 2 frame after frames of 4 by 4, 2 by 2, 2 by 2 and 8 by 8. -/
theorem draw_uploads_fresh_witness :
    (0 : Int) < 3 ∧ (0 : Int) < 2 ∧ (3 : Int) * 2 * 5 < 2 ^ 31
    ∧ ((((drawAll HybridAlgorithm.afterInitialize Statics.initial
          [(4, 4), (2, 2), (2, 2), (8, 8)]).1.draw
        (drawAll HybridAlgorithm.afterInitialize Statics.initial
          [(4, 4), (2, 2), (2, 2), (8, 8)]).2 3 2).thrown = none)
      ∧ uploads (((drawAll HybridAlgorithm.afterInitialize Statics.initial
          [(4, 4), (2, 2), (2, 2), (8, 8)]).1.draw
        (drawAll HybridAlgorithm.afterInitialize Statics.initial
          [(4, 4), (2, 2), (2, 2), (8, 8)]).2 3 2).trace) =
      [ .uint .m_depthKTab (List.replicate ((3 : Int) * 2 * 4).toNat (2 ^ 32 - 1)),
        .float .m_visibilityKTab (List.replicate ((3 : Int) * 2 * 5).toNat 0),
        .uint .m_depthComplexityBuffer (List.replicate ((3 : Int) * 2).toNat 0) ]) :=
  ⟨by decide, by decide, by decide,
    draw_uploads_fresh HybridAlgorithm.afterInitialize [(4, 4), (2, 2), (2, 2), (8, 8)] 3 2
      (by decide) (by decide) (by decide)⟩

/-- C2 (as stated) fails at positive resolutions whose sizes leave the `int`
range. At 32768 by 16384 the size `width*height*4` wraps to a negative `int`, the
`resize` of line 100 throws `std::length_error` and nothing is uploaded. At 3 by
1431655766 the product `width*height` wraps to 2, and the three uploads hold 8, 10
and 2 entries, not `width*height*4`, `width*height*5` and `width*height`. -/
theorem draw_uploads_out_of_range :
    ((0 : Int) < 32768 ∧ (0 : Int) < 16384
      ∧ (HybridAlgorithm.afterInitialize.draw Statics.initial 32768 16384).thrown
          = some .length_error
      ∧ uploads (HybridAlgorithm.afterInitialize.draw Statics.initial 32768 16384).trace = [])
    ∧ ((0 : Int) < 3 ∧ (0 : Int) < 1431655766
      ∧ uploads (HybridAlgorithm.afterInitialize.draw Statics.initial 3 1431655766).trace =
        [ .uint .m_depthKTab (List.replicate 8 (2 ^ 32 - 1)),
          .float .m_visibilityKTab (List.replicate 10 0),
          .uint .m_depthComplexityBuffer (List.replicate 2 0) ]
      ∧ ((3 : Int) * 1431655766 * 4).toNat ≠ 8
      ∧ ((3 : Int) * 1431655766 * 5).toNat ≠ 10
      ∧ ((3 : Int) * 1431655766).toNat ≠ 2) :=
  ⟨⟨by decide, by decide, by decide, by decide⟩,
    ⟨by decide, by decide, rfl, by decide, by decide, by decide⟩⟩

/-! ## The visibility recurrence -/

theorem one_sub_acc_alpha (src : Nat → Vec4) (i : Nat) :
    1 - (acc src i).a = ∏ j in Finset.range (i + 1), (1 - (src j).a) := by
  induction i with
  | zero => simp [acc]
  | succ n ih =>
    rw [Finset.prod_range_succ, ← ih]
    simp only [acc, Vec4.add, Vec4.scale]
    ring

/-- C3: in exact arithmetic, for every input `src`, the recurrence `acc_0 = src_0`,
`factor_i = 1 - acc_(i-1).alpha`, `acc_i = acc_(i-1) + src_i * factor_i` gives
`factor_i` equal to the product over `j < i` of `1 - src_j.alpha` for every
`i ≥ 1`; the weights stored for the slots `1..4` are these factors; and two
layers of alpha 0.5 with premultiplied colors `c1*0.5`, `c2*0.5` accumulate to
`acc_1 = c1*0.5 + c2*0.5*0.5`. -/
theorem visibility_factor_closed_form (src : Nat → Vec4) :
    acc src 0 = src 0
    ∧ (∀ i, acc src (i + 1) = (acc src i).add ((src (i + 1)).scale (factor src (i + 1))))
    ∧ (∀ i, factor src (i + 1) = 1 - (acc src i).a)
    ∧ (∀ i, factor src (i + 1) = ∏ j in Finset.range (i + 1), (1 - (src j).a))
    ∧ visibilityWeights src =
        [ 1 - (src 0).a,
          (1 - (src 0).a) * (1 - (src 1).a),
          (1 - (src 0).a) * (1 - (src 1).a) * (1 - (src 2).a),
          (1 - (src 0).a) * (1 - (src 1).a) * (1 - (src 2).a) * (1 - (src 3).a) ]
    ∧ (∀ c1 c2 : Vec4, acc (twoLayers c1 c2) 1 =
        ⟨c1.r * (1 / 2) + c2.r * (1 / 2) * (1 / 2), c1.g * (1 / 2) + c2.g * (1 / 2) * (1 / 2),
          c1.b * (1 / 2) + c2.b * (1 / 2) * (1 / 2), 3 / 4⟩) := by
  have hf : ∀ i, factor src (i + 1) = ∏ j in Finset.range (i + 1), (1 - (src j).a) := by
    intro i
    simp only [factor, Nat.add_sub_cancel]
    exact one_sub_acc_alpha src i
  refine ⟨rfl, fun i => rfl, fun i => rfl, hf, ?_, ?_⟩
  · have h4 : ABUFFER_SIZE.toNat = 4 := by decide
    simp only [visibilityWeights, h4, List.range_succ, List.range_zero, List.nil_append,
      List.cons_append, List.map_cons, List.map_nil, hf, Finset.prod_range_succ,
      Finset.prod_range_zero, one_mul]
  · intro c1 c2
    simp only [acc, twoLayers, Vec4.add, Vec4.scale]
    norm_num

/-! ## The order of the calls of `draw` -/

/-- C4 (amended): in every call of `draw` that returns, as every call with
`width, height > 0` and `width*height*5` in `int` range does, the only invocation
of `drawFunction` with the depth k-table program (at index `capture`), the only
`dispatchCompute` (at `dispatch`), the only invocation with the color program
(at `color`) and the two shader-storage barriers (at `b1`, `b2`, the only ones)
come in the order `capture < b1 < dispatch < b2 < color`. In every call, also
one that a `resize` ends with `std::length_error`, the calls made are a
beginning of that sequence: none of the five (index 20, 23, 27, 28, 41), or
capture and first barrier, or all but the color invocation, or all five; so no
dispatch and no color invocation is made without the barrier before it. -/
theorem draw_barriers_between_passes (self : HybridAlgorithm) (statics : Statics)
    (width height : Int) :
    (0 < width → 0 < height → width * height * 5 < 2 ^ 31 →
      (self.draw statics width height).thrown = none
      ∧ ∃ capture b1 dispatch b2 color : Nat,
        positions (Cmd.isDrawFunctionOf .m_depthKTabProgram)
            (self.draw statics width height).trace = [capture]
        ∧ positions Cmd.isStorageBarrier (self.draw statics width height).trace = [b1, b2]
        ∧ positions Cmd.isDispatch (self.draw statics width height).trace = [dispatch]
        ∧ positions (Cmd.isDrawFunctionOf .m_colorProgram)
            (self.draw statics width height).trace = [color]
        ∧ (self.draw statics width height).trace[b1]?
            = some (.glMemoryBarrier .GL_SHADER_STORAGE_BARRIER_BIT)
        ∧ (self.draw statics width height).trace[b2]?
            = some (.glMemoryBarrier .GL_SHADER_STORAGE_BARRIER_BIT)
        ∧ capture < b1 ∧ b1 < dispatch ∧ dispatch < b2 ∧ b2 < color)
    ∧ (((self.draw statics width height).thrown = some .length_error
        ∧ positions (Cmd.isDrawFunctionOf .m_depthKTabProgram)
            (self.draw statics width height).trace = []
        ∧ positions Cmd.isStorageBarrier (self.draw statics width height).trace = []
        ∧ positions Cmd.isDispatch (self.draw statics width height).trace = []
        ∧ positions (Cmd.isDrawFunctionOf .m_colorProgram)
            (self.draw statics width height).trace = [])
      ∨ ((self.draw statics width height).thrown = some .length_error
        ∧ positions (Cmd.isDrawFunctionOf .m_depthKTabProgram)
            (self.draw statics width height).trace = [20]
        ∧ positions Cmd.isStorageBarrier (self.draw statics width height).trace = [23]
        ∧ positions Cmd.isDispatch (self.draw statics width height).trace = []
        ∧ positions (Cmd.isDrawFunctionOf .m_colorProgram)
            (self.draw statics width height).trace = [])
      ∨ ((self.draw statics width height).thrown = some .length_error
        ∧ positions (Cmd.isDrawFunctionOf .m_depthKTabProgram)
            (self.draw statics width height).trace = [20]
        ∧ positions Cmd.isStorageBarrier (self.draw statics width height).trace = [23, 28]
        ∧ positions Cmd.isDispatch (self.draw statics width height).trace = [27]
        ∧ positions (Cmd.isDrawFunctionOf .m_colorProgram)
            (self.draw statics width height).trace = [])
      ∨ ((self.draw statics width height).thrown = none
        ∧ positions (Cmd.isDrawFunctionOf .m_depthKTabProgram)
            (self.draw statics width height).trace = [20]
        ∧ positions Cmd.isStorageBarrier (self.draw statics width height).trace = [23, 28]
        ∧ positions Cmd.isDispatch (self.draw statics width height).trace = [27]
        ∧ positions (Cmd.isDrawFunctionOf .m_colorProgram)
            (self.draw statics width height).trace = [41])) := by
  constructor
  · intro hw hh hrange
    obtain ⟨a, b, c, -, -, -, hdraw⟩ :=
      draw_in_range self statics width height (Int.mul_pos hw hh) hrange
    rw [hdraw]
    exact ⟨rfl, 20, 23, 27, 28, 41, rfl, rfl, rfl, rfl, rfl, rfl,
      by decide, by decide, by decide, by decide⟩
  · rcases draw_cases self statics width height with
      ⟨ht, hx⟩ | ⟨a, ht, hx⟩ | ⟨a, b, ht, hx⟩ | ⟨a, b, c, ht, hx⟩
    · rw [ht, hx]
      exact Or.inl ⟨rfl, rfl, rfl, rfl, rfl⟩
    · rw [ht, hx]
      exact Or.inr (Or.inl ⟨rfl, rfl, rfl, rfl, rfl⟩)
    · rw [ht, hx]
      exact Or.inr (Or.inr (Or.inl ⟨rfl, rfl, rfl, rfl, rfl⟩))
    · rw [ht, hx]
      exact Or.inr (Or.inr (Or.inr ⟨rfl, rfl, rfl, rfl, rfl⟩))

/-- A 4 by 4 frame drawn by the freshly set up algorithm: it returns, with the
five calls at indices `20 < 23 < 27 < 28 < 41`. -/
theorem draw_barriers_between_passes_witness :
    (0 : Int) < 4 ∧ (0 : Int) < 4 ∧ (4 : Int) * 4 * 5 < 2 ^ 31
    ∧ ((HybridAlgorithm.afterInitialize.draw Statics.initial 4 4).thrown = none
      ∧ ∃ capture b1 dispatch b2 color : Nat,
        positions (Cmd.isDrawFunctionOf .m_depthKTabProgram)
            (HybridAlgorithm.afterInitialize.draw Statics.initial 4 4).trace = [capture]
        ∧ positions Cmd.isStorageBarrier
            (HybridAlgorithm.afterInitialize.draw Statics.initial 4 4).trace = [b1, b2]
        ∧ positions Cmd.isDispatch
            (HybridAlgorithm.afterInitialize.draw Statics.initial 4 4).trace = [dispatch]
        ∧ positions (Cmd.isDrawFunctionOf .m_colorProgram)
            (HybridAlgorithm.afterInitialize.draw Statics.initial 4 4).trace = [color]
        ∧ (HybridAlgorithm.afterInitialize.draw Statics.initial 4 4).trace[b1]?
            = some (.glMemoryBarrier .GL_SHADER_STORAGE_BARRIER_BIT)
        ∧ (HybridAlgorithm.afterInitialize.draw Statics.initial 4 4).trace[b2]?
            = some (.glMemoryBarrier .GL_SHADER_STORAGE_BARRIER_BIT)
        ∧ capture < b1 ∧ b1 < dispatch ∧ dispatch < b2 ∧ b2 < color) :=
  ⟨by decide, by decide, by decide,
    (draw_barriers_between_passes HybridAlgorithm.afterInitialize Statics.initial 4 4).1
      (by decide) (by decide) (by decide)⟩

/-- C4 (as stated) fails for calls that a `resize` ends. At `(-1, 1)` the size
`-4` converts to a `size_t` above `max_size()`, the `resize` of line 100 throws
`std::length_error` after 14 calls, and the call issues no barrier, no
dispatch and no depth-capture invocation. The same happens at 32768 by 16384,
where `width*height*4` wraps to a negative `int`. -/
theorem draw_without_barriers :
    ((HybridAlgorithm.afterInitialize.draw Statics.initial (-1) 1).thrown = some .length_error
      ∧ (HybridAlgorithm.afterInitialize.draw Statics.initial (-1) 1).trace.length = 14
      ∧ positions Cmd.isStorageBarrier
          (HybridAlgorithm.afterInitialize.draw Statics.initial (-1) 1).trace = []
      ∧ positions Cmd.isDispatch
          (HybridAlgorithm.afterInitialize.draw Statics.initial (-1) 1).trace = []
      ∧ positions (Cmd.isDrawFunctionOf .m_depthKTabProgram)
          (HybridAlgorithm.afterInitialize.draw Statics.initial (-1) 1).trace = [])
    ∧ ((HybridAlgorithm.afterInitialize.draw Statics.initial 32768 16384).thrown
          = some .length_error
      ∧ (HybridAlgorithm.afterInitialize.draw Statics.initial 32768 16384).trace.length = 14
      ∧ positions Cmd.isStorageBarrier
          (HybridAlgorithm.afterInitialize.draw Statics.initial 32768 16384).trace = []
      ∧ positions Cmd.isDispatch
          (HybridAlgorithm.afterInitialize.draw Statics.initial 32768 16384).trace = []
      ∧ positions (Cmd.isDrawFunctionOf .m_depthKTabProgram)
          (HybridAlgorithm.afterInitialize.draw Statics.initial 32768 16384).trace = []) :=
  ⟨⟨by decide, by decide, by decide, by decide, by decide⟩,
    ⟨by decide, by decide, by decide, by decide, by decide⟩⟩

/-! ## The invocations of the callback -/

/-- C5 (amended): every call of `draw` with `width, height > 0` and
`width*height*5` in `int` range returns and invokes `drawFunction` exactly three
times, with the opaque, the depth k-table and the color program in this order
(indices 11, 20, 41), none in the compute pass (between the barriers at 23 and
28) or in the composition pass (from the bind of the composition framebuffer
at 46 on). A call that a `resize` ends with `std::length_error` makes only the
first one or two of these invocations. In every call, whatever the callback
does and whatever the context state on entry, the program passed at each
invocation is the one most recently made active by `use()`. -/
theorem draw_invokes_callback_thrice (self : HybridAlgorithm) (statics : Statics)
    (width height : Int) :
    (0 < width → 0 < height → width * height * 5 < 2 ^ 31 →
      (self.draw statics width height).thrown = none
      ∧ invocations (self.draw statics width height).trace
          = [.m_opaqueProgram, .m_depthKTabProgram, .m_colorProgram]
      ∧ ∃ i0 i1 i2 b1 b2 composition : Nat,
          positions Cmd.isDrawFunction (self.draw statics width height).trace = [i0, i1, i2]
          ∧ positions Cmd.isStorageBarrier (self.draw statics width height).trace = [b1, b2]
          ∧ positions (Cmd.isFboBind .m_compositionFbo) (self.draw statics width height).trace
              = [composition]
          ∧ i0 < i1 ∧ i1 < b1 ∧ b2 < i2 ∧ i2 < composition)
    ∧ (∀ (drawFunction : ProgramRef → GLState → GLState) (s : GLState),
        (run drawFunction s (self.draw statics width height).trace).seen.map
            (fun ps => (ps.1, ps.2.program))
          = (invocations (self.draw statics width height).trace).map (fun p => (p, some p)))
    ∧ (((self.draw statics width height).thrown = some .length_error
        ∧ invocations (self.draw statics width height).trace = [.m_opaqueProgram]
        ∧ positions Cmd.isDrawFunction (self.draw statics width height).trace = [11]
        ∧ positions Cmd.isStorageBarrier (self.draw statics width height).trace = []
        ∧ positions (Cmd.isFboBind .m_compositionFbo) (self.draw statics width height).trace
            = [])
      ∨ ((self.draw statics width height).thrown = some .length_error
        ∧ invocations (self.draw statics width height).trace
            = [.m_opaqueProgram, .m_depthKTabProgram]
        ∧ positions Cmd.isDrawFunction (self.draw statics width height).trace = [11, 20]
        ∧ positions Cmd.isStorageBarrier (self.draw statics width height).trace = [23]
        ∧ positions (Cmd.isFboBind .m_compositionFbo) (self.draw statics width height).trace
            = [])
      ∨ ((self.draw statics width height).thrown = some .length_error
        ∧ invocations (self.draw statics width height).trace
            = [.m_opaqueProgram, .m_depthKTabProgram]
        ∧ positions Cmd.isDrawFunction (self.draw statics width height).trace = [11, 20]
        ∧ positions Cmd.isStorageBarrier (self.draw statics width height).trace = [23, 28]
        ∧ positions (Cmd.isFboBind .m_compositionFbo) (self.draw statics width height).trace
            = [])
      ∨ ((self.draw statics width height).thrown = none
        ∧ invocations (self.draw statics width height).trace
            = [.m_opaqueProgram, .m_depthKTabProgram, .m_colorProgram]
        ∧ positions Cmd.isDrawFunction (self.draw statics width height).trace = [11, 20, 41]
        ∧ positions Cmd.isStorageBarrier (self.draw statics width height).trace = [23, 28]
        ∧ positions (Cmd.isFboBind .m_compositionFbo) (self.draw statics width height).trace
            = [46])) := by
  refine ⟨?_, ?_, ?_⟩
  · intro hw hh hrange
    obtain ⟨a, b, c, -, -, -, hdraw⟩ :=
      draw_in_range self statics width height (Int.mul_pos hw hh) hrange
    rw [hdraw]
    exact ⟨rfl, rfl, 11, 20, 41, 23, 28, 46, rfl, rfl, rfl,
      by decide, by decide, by decide, by decide⟩
  · intro drawFunction s
    rcases draw_cases self statics width height with
      ⟨ht, -⟩ | ⟨a, ht, -⟩ | ⟨a, b, ht, -⟩ | ⟨a, b, c, ht, -⟩ <;>
    · rw [ht]
      rfl
  · rcases draw_cases self statics width height with
      ⟨ht, hx⟩ | ⟨a, ht, hx⟩ | ⟨a, b, ht, hx⟩ | ⟨a, b, c, ht, hx⟩
    · rw [ht, hx]
      exact Or.inl ⟨rfl, rfl, rfl, rfl, rfl⟩
    · rw [ht, hx]
      exact Or.inr (Or.inl ⟨rfl, rfl, rfl, rfl, rfl⟩)
    · rw [ht, hx]
      exact Or.inr (Or.inr (Or.inl ⟨rfl, rfl, rfl, rfl, rfl⟩))
    · rw [ht, hx]
      exact Or.inr (Or.inr (Or.inr ⟨rfl, rfl, rfl, rfl, rfl⟩))

/-- A 4 by 4 frame drawn by the freshly set up algorithm: three invocations, at
indices 11, 20 and 41. -/
theorem draw_invokes_callback_thrice_witness :
    (0 : Int) < 4 ∧ (0 : Int) < 4 ∧ (4 : Int) * 4 * 5 < 2 ^ 31
    ∧ ((HybridAlgorithm.afterInitialize.draw Statics.initial 4 4).thrown = none
      ∧ invocations (HybridAlgorithm.afterInitialize.draw Statics.initial 4 4).trace
          = [.m_opaqueProgram, .m_depthKTabProgram, .m_colorProgram]
      ∧ ∃ i0 i1 i2 b1 b2 composition : Nat,
          positions Cmd.isDrawFunction
              (HybridAlgorithm.afterInitialize.draw Statics.initial 4 4).trace = [i0, i1, i2]
          ∧ positions Cmd.isStorageBarrier
              (HybridAlgorithm.afterInitialize.draw Statics.initial 4 4).trace = [b1, b2]
          ∧ positions (Cmd.isFboBind .m_compositionFbo)
              (HybridAlgorithm.afterInitialize.draw Statics.initial 4 4).trace = [composition]
          ∧ i0 < i1 ∧ i1 < b1 ∧ b2 < i2 ∧ i2 < composition) :=
  ⟨by decide, by decide, by decide,
    (draw_invokes_callback_thrice HybridAlgorithm.afterInitialize Statics.initial 4 4).1
      (by decide) (by decide) (by decide)⟩

/-- C5 (as stated) fails for calls that a `resize` ends. At `(-1, 1)` the `resize`
of line 100 throws `std::length_error` and `drawFunction` has been invoked once,
with the opaque program. The same happens at 32768 by 16384, where
`width*height*4` wraps to a negative `int`. -/
theorem draw_invokes_callback_once :
    ((HybridAlgorithm.afterInitialize.draw Statics.initial (-1) 1).thrown = some .length_error
      ∧ invocations (HybridAlgorithm.afterInitialize.draw Statics.initial (-1) 1).trace
          = [.m_opaqueProgram])
    ∧ ((HybridAlgorithm.afterInitialize.draw Statics.initial 32768 16384).thrown
          = some .length_error
      ∧ invocations (HybridAlgorithm.afterInitialize.draw Statics.initial 32768 16384).trace
          = [.m_opaqueProgram]) :=
  ⟨⟨by decide, by decide⟩, ⟨by decide, by decide⟩⟩

/-! ## Depth writes and blending -/

/-- C6: for every width and height greater than zero, after `resize(width, height)`
the depth buffer and the opaque, core, accumulation and color targets are
`width` by `height` (`width*height` texels); the opaque, core and color targets
are `GL_RGBA` with `GL_UNSIGNED_BYTE` components, the accumulation target is
`GL_RGBA32F` with `GL_FLOAT` components; and the five handles are unchanged. -/
theorem resize_targets (self : HybridAlgorithm) (width height : Int)
    (hw : 0 < width) (hh : 0 < height) :
    (self.resize width height).m_depthBuffer.store
        = some ⟨.GL_DEPTH_COMPONENT, width, height⟩
    ∧ (self.resize width height).m_opaqueBuffer.image
        = some ⟨.GL_RGBA, width, height, .GL_RGBA, .GL_UNSIGNED_BYTE⟩
    ∧ (self.resize width height).m_coreBuffer.image
        = some ⟨.GL_RGBA, width, height, .GL_RGBA, .GL_UNSIGNED_BYTE⟩
    ∧ (self.resize width height).m_colorBuffer.image
        = some ⟨.GL_RGBA, width, height, .GL_RGBA, .GL_UNSIGNED_BYTE⟩
    ∧ (self.resize width height).m_accumulationBuffer.image
        = some ⟨.GL_RGBA32F, width, height, .GL_RGBA, .GL_FLOAT⟩
    ∧ (self.resize width height).m_depthBuffer.texels = some (width * height)
    ∧ (self.resize width height).m_opaqueBuffer.texels = some (width * height)
    ∧ (self.resize width height).m_coreBuffer.texels = some (width * height)
    ∧ (self.resize width height).m_accumulationBuffer.texels = some (width * height)
    ∧ (self.resize width height).m_colorBuffer.texels = some (width * height)
    ∧ 0 < width * height
    ∧ (self.resize width height).handles = self.handles :=
  ⟨rfl, rfl, rfl, rfl, rfl, rfl, rfl, rfl, rfl, rfl, Int.mul_pos hw hh, rfl⟩

/-- A resize to 640 by 480 of the freshly set up algorithm. -/
theorem resize_targets_witness :
    (0 : Int) < 640 ∧ (0 : Int) < 480
    ∧ (HybridAlgorithm.afterInitialize.resize 640 480).m_depthBuffer.store
        = some ⟨.GL_DEPTH_COMPONENT, 640, 480⟩
    ∧ (HybridAlgorithm.afterInitialize.resize 640 480).m_opaqueBuffer.image
        = some ⟨.GL_RGBA, 640, 480, .GL_RGBA, .GL_UNSIGNED_BYTE⟩
    ∧ (HybridAlgorithm.afterInitialize.resize 640 480).m_coreBuffer.image
        = some ⟨.GL_RGBA, 640, 480, .GL_RGBA, .GL_UNSIGNED_BYTE⟩
    ∧ (HybridAlgorithm.afterInitialize.resize 640 480).m_colorBuffer.image
        = some ⟨.GL_RGBA, 640, 480, .GL_RGBA, .GL_UNSIGNED_BYTE⟩
    ∧ (HybridAlgorithm.afterInitialize.resize 640 480).m_accumulationBuffer.image
        = some ⟨.GL_RGBA32F, 640, 480, .GL_RGBA, .GL_FLOAT⟩
    ∧ (HybridAlgorithm.afterInitialize.resize 640 480).m_depthBuffer.texels = some (640 * 480)
    ∧ (HybridAlgorithm.afterInitialize.resize 640 480).m_opaqueBuffer.texels = some (640 * 480)
    ∧ (HybridAlgorithm.afterInitialize.resize 640 480).m_coreBuffer.texels = some (640 * 480)
    ∧ (HybridAlgorithm.afterInitialize.resize 640 480).m_accumulationBuffer.texels
        = some (640 * 480)
    ∧ (HybridAlgorithm.afterInitialize.resize 640 480).m_colorBuffer.texels = some (640 * 480)
    ∧ (0 : Int) < 640 * 480
    ∧ (HybridAlgorithm.afterInitialize.resize 640 480).handles
        = HybridAlgorithm.afterInitialize.handles :=
  ⟨by decide, by decide, resize_targets HybridAlgorithm.afterInitialize 640 480 (by decide)
    (by decide)⟩

/-- C7 (as stated) fails: after set-up and `resize(4, 4)` the depth k-table, the
visibility k-table and the depth-complexity buffer hold 0 entries, not 64, 80
and 16; and after a `draw` at 2 by 2 followed by `resize(4, 4)` the depth k-table
still holds the 16 entries of the 2 by 2 frame. -/
theorem resize_leaves_storage_buffers_unsized :
    (HybridAlgorithm.afterInitialize.resize 4 4).m_depthKTab.elements = 0
    ∧ (HybridAlgorithm.afterInitialize.resize 4 4).m_depthKTab.elements
        ≠ ((4 : Int) * 4 * 4).toNat
    ∧ (HybridAlgorithm.afterInitialize.resize 4 4).m_visibilityKTab.elements
        ≠ ((4 : Int) * 4 * (4 + 1)).toNat
    ∧ (HybridAlgorithm.afterInitialize.resize 4 4).m_depthComplexityBuffer.elements
        ≠ ((4 : Int) * 4).toNat
    ∧ (((HybridAlgorithm.afterInitialize.draw Statics.initial 2 2).self.resize 4 4
        ).m_depthKTab.elements = 16) := by
  exact ⟨rfl, by decide, by decide, by decide, by decide⟩

/-- C7 (amended): for all resolutions `(w, h)` with `w, h > 0` (and `w*h*5` in
`int` range), `resize(w, h)` leaves the three per-pixel storage buffers as they
are; it is `draw` at `(w, h)` that sizes them, to exactly `w*h*4` entries for the
depth k-table, `w*h*5` for the visibility k-table and `w*h` for the
depth-complexity buffer, and a `resize(w, h)` after it keeps these sizes. -/
theorem storage_buffers_sized_by_draw (self : HybridAlgorithm) (statics : Statics)
    (width height : Int) (hw : 0 < width) (hh : 0 < height)
    (hrange : width * height * 5 < 2 ^ 31) :
    ((self.resize width height).m_depthKTab = self.m_depthKTab
      ∧ (self.resize width height).m_visibilityKTab = self.m_visibilityKTab
      ∧ (self.resize width height).m_depthComplexityBuffer = self.m_depthComplexityBuffer)
    ∧ ((self.draw statics width height).self.m_depthKTab.elements = (width * height * 4).toNat
      ∧ (self.draw statics width height).self.m_visibilityKTab.elements
          = (width * height * 5).toNat
      ∧ (self.draw statics width height).self.m_depthComplexityBuffer.elements
          = (width * height).toNat)
    ∧ (((self.draw statics width height).self.resize width height).m_depthKTab.elements
          = (width * height * 4).toNat
      ∧ ((self.draw statics width height).self.resize width height).m_visibilityKTab.elements
          = (width * height * 5).toNat
      ∧ ((self.draw statics width height).self.resize width height
          ).m_depthComplexityBuffer.elements = (width * height).toNat) := by
  obtain ⟨a, b, c, ha, hb, hc, hdraw⟩ :=
    draw_in_range self statics width height (Int.mul_pos hw hh) hrange
  have la := length_of_vectorResize_ok _ _ _ _ ha
  have lb := length_of_vectorResize_ok _ _ _ _ hb
  have lc := length_of_vectorResize_ok _ _ _ _ hc
  rw [hdraw]
  exact ⟨⟨rfl, rfl, rfl⟩, ⟨la, lb, lc⟩, ⟨la, lb, lc⟩⟩

/-- A 4 by 4 frame drawn by the freshly set up algorithm. -/
theorem storage_buffers_sized_by_draw_witness :
    (0 : Int) < 4 ∧ (0 : Int) < 4 ∧ (4 : Int) * 4 * 5 < 2 ^ 31
    ∧ (((HybridAlgorithm.afterInitialize.resize 4 4).m_depthKTab
          = HybridAlgorithm.afterInitialize.m_depthKTab
      ∧ (HybridAlgorithm.afterInitialize.resize 4 4).m_visibilityKTab
          = HybridAlgorithm.afterInitialize.m_visibilityKTab
      ∧ (HybridAlgorithm.afterInitialize.resize 4 4).m_depthComplexityBuffer
          = HybridAlgorithm.afterInitialize.m_depthComplexityBuffer)
    ∧ ((HybridAlgorithm.afterInitialize.draw Statics.initial 4 4).self.m_depthKTab.elements
          = ((4 : Int) * 4 * 4).toNat
      ∧ (HybridAlgorithm.afterInitialize.draw Statics.initial 4 4).self.m_visibilityKTab.elements
          = ((4 : Int) * 4 * 5).toNat
      ∧ (HybridAlgorithm.afterInitialize.draw Statics.initial 4 4
          ).self.m_depthComplexityBuffer.elements = ((4 : Int) * 4).toNat)
    ∧ (((HybridAlgorithm.afterInitialize.draw Statics.initial 4 4).self.resize 4 4
          ).m_depthKTab.elements = ((4 : Int) * 4 * 4).toNat
      ∧ ((HybridAlgorithm.afterInitialize.draw Statics.initial 4 4).self.resize 4 4
          ).m_visibilityKTab.elements = ((4 : Int) * 4 * 5).toNat
      ∧ ((HybridAlgorithm.afterInitialize.draw Statics.initial 4 4).self.resize 4 4
          ).m_depthComplexityBuffer.elements = ((4 : Int) * 4).toNat)) :=
  ⟨by decide, by decide, by decide,
    storage_buffers_sized_by_draw HybridAlgorithm.afterInitialize Statics.initial 4 4
      (by decide) (by decide) (by decide)⟩

/-- C8: `resize` is idempotent: for every state and every `(width, height)`, a
second `resize(width, height)` leaves the state of the first (the same dimensions
and formats of every buffer), and neither call changes the handle of a target. -/
theorem resize_idempotent (self : HybridAlgorithm) (width height : Int) :
    (self.resize width height).resize width height = self.resize width height
    ∧ (self.resize width height).handles = self.handles
    ∧ ((self.resize width height).resize width height).handles = self.handles :=
  ⟨rfl, rfl, rfl⟩

end glowutils

namespace globjects

/-! ## The dirty flag of `ProgramPipeline` -/

theorem count_link_map (p : Nat) (l : List Nat) :
    (l.map Event.link).count (Event.link p) = l.count p :=
  List.count_map_of_injective l Event.link (fun _ _ h => Event.link.inj h) p

theorem count_link_sort (p : Nat) (s : Finset Nat) :
    ((s.sort (· ≤ ·)).map Event.link).count (Event.link p) = if p ∈ s then 1 else 0 := by
  rw [count_link_map]
  split
  · rename_i h
    exact List.count_eq_one_of_mem (Finset.sort_nodup _ s) ((Finset.mem_sort _).mpr h)
  · rename_i h
    exact List.count_eq_zero_of_not_mem (fun hc => h ((Finset.mem_sort _).mp hc))

theorem count_link_checkUseStatus (self : ProgramPipeline) (driver : Driver) (p : Nat) :
    (self.checkUseStatus driver).1.count (Event.link p) = 0 := by
  unfold ProgramPipeline.checkUseStatus ProgramPipeline.infoLog
  split <;> [skip; split] <;> simp

theorem count_validate_checkUseStatus (self : ProgramPipeline) (driver : Driver) :
    (self.checkUseStatus driver).1.count (Event.glValidateProgramPipeline self.id) = 1 := by
  unfold ProgramPipeline.checkUseStatus ProgramPipeline.infoLog
  split <;> [skip; split] <;> simp

theorem count_validate_map_link (n : Nat) (l : List Nat) :
    (l.map Event.link).count (Event.glValidateProgramPipeline n) = 0 := by
  induction l with
  | nil => rfl
  | cons a l ih => simp [ih]

theorem use_dirty (self : ProgramPipeline) (driver : Driver) (h : self.m_dirty = true) :
    (self.use driver).1.m_dirty = false
    ∧ (self.use driver).1.m_programs = self.m_programs
    ∧ (∀ p, linkCount p (self.use driver).2 = if p ∈ self.m_programs then 1 else 0)
    ∧ validationCount self.id (self.use driver).2 = 1 := by
  simp only [ProgramPipeline.use, h, if_true, linkCount, validationCount, List.count_append,
    count_link_sort, count_link_checkUseStatus, count_validate_checkUseStatus,
    count_validate_map_link]
  refine ⟨trivial, trivial, fun p => ?_, ?_⟩ <;> simp

theorem use_clean (self : ProgramPipeline) (driver : Driver) (h : self.m_dirty = false) :
    (self.use driver).1 = self
    ∧ (∀ p, linkCount p (self.use driver).2 = 0)
    ∧ validationCount self.id (self.use driver).2 = 0 := by
  simp [ProgramPipeline.use, h, linkCount, validationCount]

theorem apply_dirty (self : ProgramPipeline) (op : Op) :
    (self.apply op).1.m_dirty =
      if op.isUse then false else if op.isChange then true else self.m_dirty := by
  cases op with
  | use driver =>
    simp only [ProgramPipeline.apply, Op.isUse, if_true]
    by_cases h : self.m_dirty = true
    · exact (use_dirty self driver h).1
    · have h2 : self.m_dirty = false := by simpa using h
      rw [(use_clean self driver h2).1]; exact h2
  | release => rfl
  | useStages p st => rfl
  | releaseStages st => rfl
  | releaseProgram p => rfl

/-- Since the last `use()`, if any, and otherwise since `self`: the pipeline is
dirty after the calls `ops` exactly when `self` was dirty and `ops` has no
`use()`, or `ops` has a change with no `use()` after it. -/
theorem applyAll_dirty (ops : List Op) : ∀ self : ProgramPipeline,
    (self.applyAll ops).m_dirty = true ↔
      (self.m_dirty = true ∧ ∀ o ∈ ops, o.isUse = false)
      ∨ ∃ pre c post, ops = pre ++ c :: post ∧ c.isChange = true ∧ ∀ o ∈ post, o.isUse = false := by
  induction ops with
  | nil =>
    intro self
    simp [ProgramPipeline.applyAll]
  | cons op ops ih =>
    intro self
    simp only [ProgramPipeline.applyAll]
    rw [ih, apply_dirty]
    constructor
    · rintro (⟨hd, hno⟩ | ⟨pre, c, post, rfl, hc, hno⟩)
      · by_cases hu : op.isUse = true
        · simp [hu] at hd
        · have hu2 : op.isUse = false := by simpa using hu
          by_cases hch : op.isChange = true
          · exact Or.inr ⟨[], op, ops, rfl, hch, hno⟩
          · have hch2 : op.isChange = false := by simpa using hch
            simp only [hu2, hch2] at hd
            refine Or.inl ⟨by simpa using hd, ?_⟩
            intro o ho
            rcases List.mem_cons.mp ho with rfl | ho
            · exact hu2
            · exact hno o ho
      · exact Or.inr ⟨op :: pre, c, post, rfl, hc, hno⟩
    · rintro (⟨hd, hno⟩ | ⟨pre, c, post, heq, hc, hno⟩)
      · have hu : op.isUse = false := hno op (List.mem_cons_self _ _)
        by_cases hch : op.isChange = true
        · exact Or.inl ⟨by simp [hu, hch], fun o ho => hno o (List.mem_cons_of_mem _ ho)⟩
        · have hch2 : op.isChange = false := by simpa using hch
          exact Or.inl ⟨by simp [hu, hch2, hd], fun o ho => hno o (List.mem_cons_of_mem _ ho)⟩
      · cases pre with
        | nil =>
          simp only [List.nil_append, List.cons.injEq] at heq
          obtain ⟨rfl, rfl⟩ := heq
          have hu : op.isUse = false := by cases op <;> simp_all [Op.isChange, Op.isUse]
          exact Or.inl ⟨by simp [hu, hc], hno⟩
        | cons a pre =>
          simp only [List.cons_append, List.cons.injEq] at heq
          obtain ⟨rfl, rfl⟩ := heq
          exact Or.inr ⟨pre, c, post, rfl, hc, hno⟩

/-- C10: a newly constructed pipeline is dirty; `useStages`, `releaseStages` and
`releaseProgram` leave it dirty; `use()` on a dirty pipeline links each program of
the set exactly once (and no other), validates once and leaves the pipeline
clean; `use()` on a clean pipeline links no program and does not validate. Hence
after any sequence of calls on a new pipeline, a `use()` relinks the programs
of the set exactly when no `use()` came before or a stage/program change came
after the last one. -/
theorem pipeline_dirty_flag :
    (∀ id, (ProgramPipeline.new id).m_dirty = true)
    ∧ (∀ (self : ProgramPipeline) (program stages : Nat),
        (self.useStages program stages).1.m_dirty = true)
    ∧ (∀ (self : ProgramPipeline) (stages : Nat), (self.releaseStages stages).1.m_dirty = true)
    ∧ (∀ (self : ProgramPipeline) (program : Nat),
        (self.releaseProgram program).1.m_dirty = true)
    ∧ (∀ (self : ProgramPipeline) (driver : Driver), self.m_dirty = true →
        (self.use driver).1.m_dirty = false
        ∧ (∀ p, linkCount p (self.use driver).2 = if p ∈ self.m_programs then 1 else 0)
        ∧ validationCount self.id (self.use driver).2 = 1)
    ∧ (∀ (self : ProgramPipeline) (driver : Driver), self.m_dirty = false →
        (self.use driver).1.m_dirty = false
        ∧ (∀ p, linkCount p (self.use driver).2 = 0)
        ∧ validationCount self.id (self.use driver).2 = 0)
    ∧ (∀ (id : Nat) (ops : List Op) (driver : Driver) (p : Nat),
        p ∈ ((ProgramPipeline.new id).applyAll ops).m_programs →
        (linkCount p ((((ProgramPipeline.new id).applyAll ops).use driver).2) = 1 ↔
          (∀ o ∈ ops, o.isUse = false)
          ∨ ∃ pre c post, ops = pre ++ c :: post ∧ c.isChange = true
              ∧ ∀ o ∈ post, o.isUse = false)
        ∧ (linkCount p ((((ProgramPipeline.new id).applyAll ops).use driver).2) = 0 ↔
          ¬ ((∀ o ∈ ops, o.isUse = false)
          ∨ ∃ pre c post, ops = pre ++ c :: post ∧ c.isChange = true
              ∧ ∀ o ∈ post, o.isUse = false))) := by
  refine ⟨fun _ => rfl, fun _ _ _ => rfl, fun _ _ => rfl, fun _ _ => rfl, ?_, ?_, ?_⟩
  · intro self driver h
    obtain ⟨h1, -, h2, h3⟩ := use_dirty self driver h
    exact ⟨h1, h2, h3⟩
  · intro self driver h
    obtain ⟨h1, h2, h3⟩ := use_clean self driver h
    exact ⟨by rw [h1]; exact h, h2, h3⟩
  · intro id ops driver p hp
    have key := applyAll_dirty ops (ProgramPipeline.new id)
    have hnew : (ProgramPipeline.new id).m_dirty = true := rfl
    simp only [hnew, true_and] at key
    by_cases hd : ((ProgramPipeline.new id).applyAll ops).m_dirty = true
    · have hl := (use_dirty _ driver hd).2.2.1 p
      rw [if_pos hp] at hl
      have hs := key.mp hd
      rw [hl]
      exact ⟨⟨fun _ => hs, fun _ => rfl⟩, ⟨fun h => absurd h (by decide), fun h => absurd hs h⟩⟩
    · have hd2 : ((ProgramPipeline.new id).applyAll ops).m_dirty = false := by simpa using hd
      have hl := (use_clean _ driver hd2).2.1 p
      have hs : ¬ _ := fun h => hd (key.mpr h)
      rw [hl]
      exact ⟨⟨fun h => absurd h (by decide), fun h => absurd h hs⟩, ⟨fun _ => hs, fun _ => rfl⟩⟩

end globjects
